import Mathlib

set_option maxRecDepth 10000
set_option maxHeartbeats 1000000

/-!
Verification of the galaxy_ng dynaconf hook pipeline
(`src/galaxy_ng/app/dynaconf_hooks.py`).

Settings values are modelled by the inductive `SettingValue`; a dynaconf
settings object (and each hook's returned partial update, a Python dict)
is modelled as an association list `Store` with first-match lookup.
`dict.update` is modelled by `dataUpdate` (later entries win per key).
-/

/-- A dynaconf setting value: None, bool, string, int, list, dict, or an
object opaque to this development (Dynaconf instances, hook closures). -/
inductive SettingValue where
  | vNone : SettingValue
  | vBool : Bool → SettingValue
  | vStr : String → SettingValue
  | vInt : Int → SettingValue
  | vList : List SettingValue → SettingValue
  | vMap : List (String × SettingValue) → SettingValue
  | vObj : String → SettingValue

/-- A settings store / partial-update dict: key-value association list. -/
abbrev Store := List (String × SettingValue)

/-- A partial update returned by a hook (same shape as a store). -/
abbrev Data := Store

/-- Dictionary lookup: value of the first entry with the given key. -/
def storeGet : Store → String → Option SettingValue
  | [], _ => none
  | (k', v) :: rest, k => if k' = k then some v else storeGet rest k

/-- Dictionary single-key write: `d[k] = v`.  Keeps get-semantics of a
Python dict: the new value shadows every previous binding of `k` and all
other keys are untouched. -/
def storeSet (s : Store) (k : String) (v : SettingValue) : Store :=
  (k, v) :: s.filter (fun p => p.1 != k)

/-- `d1.update(d2)` for dicts: every entry of `d2` is written into `d1`
in order (later duplicate keys in `d2` win). -/
def dataUpdate (d1 d2 : Data) : Data :=
  d2.foldl (fun acc p => storeSet acc p.1 p.2) d1

theorem storeGet_storeSet_self (s : Store) (k : String) (v : SettingValue) :
    storeGet (storeSet s k v) k = some v := by
  simp [storeSet, storeGet]

theorem storeGet_filter_ne (s : Store) (k k' : String) (h : k' ≠ k) :
    storeGet (s.filter (fun p => p.1 != k)) k' = storeGet s k' := by
  induction s with
  | nil => rfl
  | cons hd tl ih =>
    obtain ⟨a, b⟩ := hd
    by_cases hak : a = k
    · subst hak
      have hka : a ≠ k' := fun hh => h hh.symm
      simp [List.filter_cons, storeGet, ih, hka]
    · by_cases hak' : a = k'
      · subst hak'
        simp [List.filter_cons, storeGet, bne_iff_ne, hak]
      · simp [List.filter_cons, storeGet, bne_iff_ne, hak, hak', ih]

theorem storeGet_storeSet_ne (s : Store) (k k' : String) (v : SettingValue)
    (h : k' ≠ k) : storeGet (storeSet s k v) k' = storeGet s k' := by
  simp only [storeSet, storeGet, if_neg (Ne.symm h)]
  exact storeGet_filter_ne s k k' h

theorem storeGet_dataUpdate_notin (d1 d2 : Data) (k : String)
    (h : ∀ p ∈ d2, p.1 ≠ k) :
    storeGet (dataUpdate d1 d2) k = storeGet d1 k := by
  induction d2 generalizing d1 with
  | nil => rfl
  | cons hd tl ih =>
    have ha : hd.1 ≠ k := h hd (by simp)
    simp only [dataUpdate, List.foldl_cons]
    have htl := ih (storeSet d1 hd.1 hd.2) (fun p hp => h p (by simp [hp]))
    simp only [dataUpdate] at htl
    rw [htl, storeGet_storeSet_ne d1 hd.1 k hd.2 (Ne.symm ha)]

theorem storeGet_dataUpdate_of_mem (d1 d2 : Data) (k : String) (v : SettingValue)
    (hnd : (d2.map Prod.fst).Nodup) (hget : storeGet d2 k = some v) :
    storeGet (dataUpdate d1 d2) k = some v := by
  induction d2 generalizing d1 with
  | nil => simp [storeGet] at hget
  | cons hd tl ih =>
    obtain ⟨a, b⟩ := hd
    simp only [List.map_cons, List.nodup_cons] at hnd
    simp only [dataUpdate, List.foldl_cons]
    by_cases hak : a = k
    · subst hak
      simp only [storeGet, if_pos rfl] at hget
      have hnot : ∀ p ∈ tl, p.1 ≠ a := by
        intro p hp hpa
        exact hnd.1 (hpa ▸ List.mem_map_of_mem Prod.fst hp)
      have h2 := storeGet_dataUpdate_notin (storeSet d1 a b) tl a hnot
      simp only [dataUpdate] at h2
      rw [h2, storeGet_storeSet_self]
      exact hget
    · simp only [storeGet, if_neg hak] at hget
      exact ih (storeSet d1 a b) hnd.2 hget

/-! ### Authentication backends and classes (dynaconf_hooks.py lines 421-463, 596-633) -/

def galaxySessionClass : String := "galaxy_ng.app.auth.session.SessionAuthentication"

def prefixedUserBackend : String :=
  "ansible_base.lib.backends.prefixed_user_auth.PrefixedUserAuthBackend"

/-- The append-unique merge used by `configure_authentication_backends`:
`backends.extend([item for item in incoming if item not in backends])`. -/
def mergeUnique {α : Type} [DecidableEq α] (existing incoming : List α) : List α :=
  existing ++ incoming.filter (fun x => !existing.contains x)

/-- Lines 624-627: if `dynaconf_merge` occurs more than once, drop every
occurrence and append a single one at the end. -/
def dedupDynaconfMerge (backends : List String) : List String :=
  if backends.count ("dynaconf_merge") > 1 then
    backends.filter (fun x => x != "dynaconf_merge") ++ ["dynaconf_merge"]
  else backends

/-- Embedding of `configure_authentication_backends` (lines 596-633) at the
level of its backend lists: `settingsBackends` models the list read from
`settings`, `dataBackends` the optional list already accumulated in `data`
by earlier hooks, and `presetBackends` the optional preset list selected by
`AUTHENTICATION_BACKEND_PRESET` out of `AUTHENTICATION_BACKEND_PRESETS_DATA`.
The returned list is the one stored into the `AUTHENTICATION_BACKENDS` result
key (the `len(backends) > 0` guard is always met because the prefixed-user
backend has been ensured). -/
def configure_authentication_backends (settingsBackends : List String)
    (dataBackends : Option (List String)) (presetBackends : Option (List String)) :
    List String :=
  let b1 := settingsBackends
  let b2 := match dataBackends with
    | none => b1
    | some l => mergeUnique b1 l
  let b3 := match presetBackends with
    | none => b2
    | some l => mergeUnique b2 l
  let b4 := if b3.contains prefixedUserBackend then b3 else b3 ++ [prefixedUserBackend]
  dedupDynaconfMerge b4

def keycloakInsertClasses : List String :=
  ["galaxy_ng.app.auth.token.ExpiringTokenAuthentication",
   "galaxy_ng.app.auth.keycloak.KeycloakBasicAuth"]

/-- Embedding of `configure_authentication_classes` (lines 421-463) at the
level of the consolidated class list. `galaxyAuthClasses` models the galaxy
auth class list obtained from `data` (falling back to `settings`);
`keycloakEnabled` models `data.get('GALAXY_AUTH_KEYCLOAK_ENABLED') is True`.
Returns the consolidated list that (when non-empty) is stored into
`ANSIBLE_AUTHENTICATION_CLASSES`, `GALAXY_AUTHENTICATION_CLASSES` and
`REST_FRAMEWORK__DEFAULT_AUTHENTICATION_CLASSES`. -/
def configure_authentication_classes (galaxyAuthClasses : List String)
    (keycloakEnabled : Bool) : List String :=
  let cls := if keycloakEnabled then
      keycloakInsertClasses.foldl (fun acc c => if acc.contains c then acc else c :: acc)
        galaxyAuthClasses
    else galaxyAuthClasses
  if !cls.isEmpty && cls.head? != some galaxySessionClass then
    if cls.contains galaxySessionClass then
      galaxySessionClass :: cls.erase galaxySessionClass
    else
      galaxySessionClass :: cls
  else cls

/-! ### Keycloak and social-auth hooks (dynaconf_hooks.py lines 106-293) -/

/-- Python truthiness of an (optional) setting value, as used by
`all([...])` and plain `if settings.get(...)` tests in the hooks. -/
def truthy : Option SettingValue → Bool
  | none => false
  | some .vNone => false
  | some (.vBool b) => b
  | some (.vStr s) => !s.isEmpty
  | some (.vInt n) => n != 0
  | some (.vList l) => !l.isEmpty
  | some (.vMap m) => !m.isEmpty
  | some (.vObj _) => true

/-- Python `str()` of a value, as performed inside an f-string. -/
def asStr : SettingValue → String
  | .vNone => "None"
  | .vBool true => "True"
  | .vBool false => "False"
  | .vStr s => s
  | .vInt n => toString n
  | .vList _ => "<list>"
  | .vMap _ => "<dict>"
  | .vObj t => t

def optStr (o : Option SettingValue) : String :=
  match o with
  | none => "None"
  | some v => asStr v

def dabServiceBackedRedirect : String :=
  "ansible_base.resource_registry.utils.service_backed_sso_pipeline.redirect_to_resource_server"

def keycloakPipeline : List String :=
  ["social_core.pipeline.social_auth.social_details",
   "social_core.pipeline.social_auth.social_uid",
   "social_core.pipeline.social_auth.social_user",
   "social_core.pipeline.user.get_username",
   "social_core.pipeline.social_auth.associate_by_email",
   "social_core.pipeline.user.create_user",
   "social_core.pipeline.social_auth.associate_user",
   "social_core.pipeline.social_auth.load_extra_data",
   "social_core.pipeline.user.user_details",
   "galaxy_ng.app.pipelines.user_role",
   "galaxy_ng.app.pipelines.user_group",
   dabServiceBackedRedirect]

def pulpContextProcessors : List String :=
  ["django.template.context_processors.debug",
   "django.template.context_processors.request",
   "django.contrib.auth.context_processors.auth",
   "django.contrib.messages.context_processors.messages",
   "social_django.context_processors.backends",
   "social_django.context_processors.login_redirect"]

/-- The `TEMPLATES` value built at lines 210-228 (`os.path.join` modelled as
string concatenation with a slash). -/
def keycloakTemplates (settings : Store) : SettingValue :=
  .vList [.vMap
    [("BACKEND", .vStr ("django.template.backends.django.DjangoTemplates")),
     ("DIRS", .vList [.vStr (optStr (storeGet settings ("BASE_DIR")) ++ "/templates")]),
     ("APP_DIRS", .vBool true),
     ("OPTIONS", .vMap [("context_processors",
        .vList (pulpContextProcessors.map SettingValue.vStr))])]]

/-- Embedding of `configure_keycloak` (lines 106-230).  Reads only the
original `settings` store, and returns its partial-update dict ({} unless
all six keycloak social-auth values are truthy). -/
def configure_keycloak (settings : Store) : Data :=
  let kcKey := storeGet settings ("SOCIAL_AUTH_KEYCLOAK_KEY")
  let kcSecret := storeGet settings ("SOCIAL_AUTH_KEYCLOAK_SECRET")
  let kcPublicKey := storeGet settings ("SOCIAL_AUTH_KEYCLOAK_PUBLIC_KEY")
  let kcProtocol := storeGet settings ("KEYCLOAK_PROTOCOL")
  let kcHost := storeGet settings ("KEYCLOAK_HOST")
  let kcPort := storeGet settings ("KEYCLOAK_PORT")
  let kcRealm := storeGet settings ("KEYCLOAK_REALM")
  if truthy kcKey && truthy kcSecret && truthy kcPublicKey &&
      truthy kcHost && truthy kcPort && truthy kcRealm then
    let keycloakUrl := optStr kcProtocol ++ "://" ++ optStr kcHost ++ ":" ++ optStr kcPort
    let realm := optStr kcRealm
    let hostLoopback := (storeGet settings ("KEYCLOAK_HOST_LOOPBACK")).getD .vNone
    let authUrlOf := fun (base : String) =>
      base ++ "/auth/realms/" ++ realm ++ "/protocol/openid-connect/auth/"
    let authUrl := if truthy (some hostLoopback) then
        authUrlOf (optStr kcProtocol ++ "://" ++ asStr hostLoopback ++ ":" ++ optStr kcPort)
      else authUrlOf keycloakUrl
    let roleClaim := (storeGet settings ("KEYCLOAK_GROUP_TOKEN_CLAIM")).getD (.vStr ("client_roles"))
    [("GALAXY_AUTH_KEYCLOAK_ENABLED", SettingValue.vBool true),
     ("KEYCLOAK_ADMIN_ROLE", (storeGet settings ("KEYCLOAK_ADMIN_ROLE")).getD (.vStr ("hubadmin"))),
     ("KEYCLOAK_GROUP_TOKEN_CLAIM",
       (storeGet settings ("KEYCLOAK_GROUP_TOKEN_CLAIM")).getD (.vStr ("group"))),
     ("KEYCLOAK_ROLE_TOKEN_CLAIM", roleClaim),
     ("KEYCLOAK_HOST_LOOPBACK", hostLoopback),
     ("KEYCLOAK_URL", .vStr keycloakUrl),
     ("SOCIAL_AUTH_KEYCLOAK_AUTHORIZATION_URL", .vStr authUrl),
     ("SOCIAL_AUTH_KEYCLOAK_ACCESS_TOKEN_URL",
       .vStr (keycloakUrl ++ "/auth/realms/" ++ realm ++ "/protocol/openid-connect/token/")),
     ("SOCIAL_AUTH_LOGIN_REDIRECT_URL",
       (storeGet settings ("SOCIAL_AUTH_LOGIN_REDIRECT_URL")).getD (.vStr ("/ui/"))),
     ("SOCIAL_AUTH_JSONFIELD_ENABLED", .vBool true),
     ("SOCIAL_AUTH_URL_NAMESPACE", .vStr ("social")),
     ("SOCIAL_AUTH_KEYCLOAK_EXTRA_DATA",
       .vList [.vList [.vStr ("refresh_token"), .vStr ("refresh_token")],
               .vList [roleClaim, roleClaim]]),
     ("SOCIAL_AUTH_PIPELINE", .vList (keycloakPipeline.map SettingValue.vStr)),
     ("GALAXY_FEATURE_FLAGS__external_authentication", .vBool true),
     ("INSTALLED_APPS",
       .vList (["automated_logging", "social_django", "dynaconf_merge_unique"].map SettingValue.vStr)),
     ("AUTHENTICATION_BACKENDS",
       .vList (["social_core.backends.keycloak.KeycloakOAuth2", "dynaconf_merge"].map SettingValue.vStr)),
     ("GALAXY_TOKEN_EXPIRATION",
       (storeGet settings ("GALAXY_TOKEN_EXPIRATION")).getD (.vInt 1440)),
     ("TEMPLATES", keycloakTemplates settings)]
  else []

def socialauthPipeline : List String :=
  ["social_core.pipeline.social_auth.social_details",
   "social_core.pipeline.social_auth.social_uid",
   "social_core.pipeline.social_auth.auth_allowed",
   "social_core.pipeline.social_auth.social_user",
   "galaxy_ng.social.pipeline.user.get_username",
   "galaxy_ng.social.pipeline.user.create_user",
   "social_core.pipeline.social_auth.associate_user",
   "social_core.pipeline.social_auth.load_extra_data",
   "social_core.pipeline.user.user_details",
   dabServiceBackedRedirect]

def sessionTokenBasicClasses : List String :=
  [galaxySessionClass,
   "rest_framework.authentication.TokenAuthentication",
   "rest_framework.authentication.BasicAuthentication"]

/-- Embedding of `configure_socialauth` (lines 233-293).  Note that it reads
`AUTHENTICATION_BACKENDS` from the original `settings` store (default `[]`),
not from the partial updates accumulated by earlier hooks. -/
def configure_socialauth (settings : Store) : Data :=
  let ghKey := storeGet settings ("SOCIAL_AUTH_GITHUB_KEY")
  let ghSecret := storeGet settings ("SOCIAL_AUTH_GITHUB_SECRET")
  if truthy ghKey && truthy ghSecret then
    let backends :=
      (match storeGet settings ("AUTHENTICATION_BACKENDS") with
        | some (.vList l) => l
        | _ => []) ++
      [.vStr ("galaxy_ng.social.GalaxyNGOAuth2"), .vStr ("dynaconf_merge")]
    [("INSTALLED_APPS", SettingValue.vList (["social_django", "dynaconf_merge_unique"].map SettingValue.vStr)),
     ("GALAXY_FEATURE_FLAGS__external_authentication", .vBool true),
     ("AUTHENTICATION_BACKENDS", .vList backends),
     ("DEFAULT_AUTHENTICATION_BACKENDS", .vList backends),
     ("GALAXY_AUTHENTICATION_BACKENDS", .vList backends),
     ("DEFAULT_AUTHENTICATION_CLASSES", .vList (sessionTokenBasicClasses.map SettingValue.vStr)),
     ("GALAXY_AUTHENTICATION_CLASSES", .vList (sessionTokenBasicClasses.map SettingValue.vStr)),
     ("REST_FRAMEWORK_AUTHENTICATION_CLASSES", .vList (sessionTokenBasicClasses.map SettingValue.vStr)),
     ("SOCIAL_AUTH_PIPELINE", .vList (socialauthPipeline.map SettingValue.vStr))]
  else []

/-! ### Dynamic override layer (dynaconf_hooks.py lines 685-807) -/

/-- `key.upper()` on an (ASCII) settings key, modelled on the character
list so that it computes by kernel reduction. -/
def strUpper (s : String) : String := String.mk (s.data.map Char.toUpper)

/-- Ambient state seen by an after-get hook: whether Django apps are ready
(`apps.ready`), the mapping returned by `get_settings_from_cache()`, the
mapping returned by `get_settings_from_db()`, and whether dynaconf can parse
and merge the fetched data (`temp_settings.update(..., tomlfy=True)` raises
`DynaconfFormatError`/`DynaconfParseError` exactly when `parseOk` is false).
Modelled from the spec: the cache and db accessors live outside `src/`
(`galaxy_ng.app.tasks.settings_cache`); per the spec, errors during cache or
store access are swallowed by them and treated as a miss, so an accessor
error is modelled as the empty (falsy) mapping. -/
structure DynState where
  appsReady : Bool
  cache : Data
  db : Data
  parseOk : Bool

/-- `temp_settings.update(data, ..., tomlfy=True)`: merges the fetched data
into the temporary settings, or raises a parse/format error. -/
def temp_settings_update (temp : Store) (d : Data) (parseOk : Bool) :
    Except String Store :=
  if parseOk then .ok (dataUpdate temp d) else .error ("DynaconfFormatError")

/-- Embedding of the after-get hook `read_settings_from_cache_or_db`
(lines 719-764).  `schema` models the key set of `DYNAMIC_SETTINGS_SCHEMA`,
`temp` the temporary settings object the hook may update, `staticVal` the
statically resolved `value.value` handed to the hook.  The parse/format
error raised by `update` is caught and logged, leaving `temp` unchanged. -/
def read_settings_from_cache_or_db (schema : List String) (st : DynState)
    (temp : Store) (key : String) (staticVal : SettingValue) : SettingValue :=
  if !st.appsReady || !(schema.contains (strUpper key)) then staticVal
  else
    let data := if st.cache.isEmpty then st.db else st.cache
    let temp2 := if data.isEmpty then temp
      else match temp_settings_update temp data st.parseOk with
        | .ok t => t
        | .error _ => temp
    (storeGet temp2 (strUpper key)).getD staticVal

/-- Request headers as a mapping (`dict(req.headers)`). -/
abbrev Headers := List (String × String)

def hdrGet : Headers → String → Option String
  | [], _ => none
  | (k', v) :: rest, k => if k' = k then some v else hdrGet rest k

/-- Embedding of the after-get hook `alter_hostname_settings`
(lines 766-796).  `req` models `get_current_request()` (`none` when no
request context is active).  The whole `DynState` is passed although only
`appsReady` is consulted: the cache, db and parsing state are never read. -/
def alter_hostname_settings (st : DynState) (req : Option Headers)
    (key : String) (staticVal : SettingValue) : SettingValue :=
  let allowedKeys := ["CONTENT_ORIGIN", "ANSIBLE_API_HOSTNAME", "TOKEN_SERVER"]
  if !st.appsReady || !(allowedKeys.contains (strUpper key)) then staticVal
  else
    match req with
    | some headers =>
      let proto := (hdrGet headers ("X-Forwarded-Proto")).getD ("http")
      let host := (hdrGet headers ("Host")).getD ("localhost:5001")
      let baseurl := proto ++ "://" ++ host
      if (strUpper key) = "TOKEN_SERVER" then .vStr (baseurl ++ "/token/")
      else .vStr baseurl
    | none => staticVal

/-! ### Validator (dynaconf_hooks.py lines 658-682)

Modelled from the spec: the `dynaconf.Validator` engine itself lives in the
external dynaconf package.  Following the spec, a rule carries a bound key,
a predicate, and an optional condition on another key; the condition is
evaluated first and a false condition skips the rule entirely; a rule whose
bound key is absent (no `must_exist`) passes; the first failing rule raises
`ValidationError`. -/

inductive RuleOutcome where
  | skipped : RuleOutcome
  | passed : RuleOutcome
  | failed : RuleOutcome
deriving DecidableEq

structure CondRule where
  key : String
  pred : SettingValue → Bool
  cond : Option (String × (SettingValue → Bool))

def condHolds (store : Store) (r : CondRule) : Bool :=
  match r.cond with
  | none => true
  | some (ck, cp) =>
    match storeGet store ck with
    | none => true
    | some v => cp v

def runRule (store : Store) (r : CondRule) : RuleOutcome :=
  if !(condHolds store r) then .skipped
  else
    match storeGet store r.key with
    | none => .passed
    | some v => if r.pred v then .passed else .failed

/-- `eq=False`: the value equals Python `False`. -/
def isFalseVal : SettingValue → Bool
  | .vBool false => true
  | _ => false

/-- The conditional rule registered at lines 660-671:
`GALAXY_REQUIRE_SIGNATURE_FOR_APPROVAL` must equal `False` whenever
`GALAXY_REQUIRE_CONTENT_APPROVAL` equals `False`. -/
def galaxyRule1 : CondRule :=
  { key := "GALAXY_REQUIRE_SIGNATURE_FOR_APPROVAL"
    pred := isFalseVal
    cond := some ("GALAXY_REQUIRE_CONTENT_APPROVAL", isFalseVal) }

/-- Key set of the resolved `AUTHENTICATION_BACKEND_PRESETS_DATA` mapping
(default `{}`), read at line 674. -/
def presetsKeys (store : Store) : List String :=
  match storeGet store ("AUTHENTICATION_BACKEND_PRESETS_DATA") with
  | some (.vMap m) => m.map Prod.fst
  | _ => []

/-- The membership rule registered at lines 673-680:
`AUTHENTICATION_BACKEND_PRESET` must be in `["local", "custom", *presets.keys()]`. -/
def galaxyRule2 (store : Store) : CondRule :=
  { key := "AUTHENTICATION_BACKEND_PRESET"
    pred := fun v =>
      match v with
      | .vStr s => ("local" :: "custom" :: presetsKeys store).contains s
      | _ => false
    cond := none }

/-- Embedding of `validate` (lines 658-682): registers the two rules and
runs them; returns the message of the first failing rule (`ValidationError`)
or `none` when validation passes. -/
def galaxyValidate (store : Store) : Option String :=
  if runRule store galaxyRule1 = RuleOutcome.failed then
    some ("GALAXY_REQUIRE_SIGNATURE_FOR_APPROVAL cannot be True if GALAXY_REQUIRE_CONTENT_APPROVAL is False")
  else if runRule store (galaxyRule2 store) = RuleOutcome.failed then
    some ("AUTHENTICATION_BACKEND_PRESET must be one of local, custom or a registered preset key")
  else none

/-! ### configure_dynamic_settings and post (dynaconf_hooks.py lines 50-103, 685-807) -/

/-- The two hook functions defined in `configure_dynamic_settings` locals
that `DYNACONF_AFTER_GET_HOOKS` entries may name (any other name raises
`KeyError` at `locals()[func_name]`). -/
def localHookNames : List String :=
  ["read_settings_from_cache_or_db", "alter_hostname_settings"]

def dynamicSettingsDegradedMsg : String :=
  "Galaxy Dynamic Settings requires Dynaconf >=3.2.3, system will work normally but dynamic settings from database will be ignored"

/-- Embedding of `configure_dynamic_settings` (lines 685-807).
`enabledHooks` models `settings.get("DYNACONF_AFTER_GET_HOOKS")`;
`importsOk` models whether the lazy dynaconf hooking imports succeed
(they raise `ImportError` on dynaconf < 3.2.3, which is caught).
Returns the partial update together with the log messages emitted. -/
def configure_dynamic_settings (enabledHooks : List String) (importsOk : Bool) :
    Except String (Data × List String) :=
  if enabledHooks.isEmpty then .ok ([], [])
  else if !importsOk then .ok ([], [dynamicSettingsDegradedMsg])
  else if enabledHooks.all (fun n => localHookNames.contains n) then
    .ok ([("_registered_hooks", SettingValue.vObj ("after_get_hook_functions"))],
         ["Enabling Dynamic Settings Feature"])
  else .error ("KeyError")

/-- Line 91: `settings.get("RESOURCE_SERVER__URL") is not None`. -/
def isConnectedToResourceServer (settings : Store) : Bool :=
  match storeGet settings ("RESOURCE_SERVER__URL") with
  | none => false
  | some .vNone => false
  | some _ => true

/-- The initial result dict of `post` (line 64). -/
def postInitData : Data := [("dynaconf_merge", SettingValue.vBool false)]

/-- Embedding of `post` (lines 50-103).  The configuration hooks called
before line 90 (`configure_ldap` .. `configure_authentication_classes`)
depend on external collaborators (python-ldap, DAB, the environment); since
each is a function returning a partial update that `post` folds into `data`
with `dict.update`, they are abstracted here as the list `earlierHooks` of
their returned partial updates, applied in order.  From line 90 on, the code
is embedded directly: the `IS_CONNECTED_TO_RESOURCE_SERVER` assignment, the
optional `configure_dynamic_settings` update, `validate` (which raises
`ValidationError` on failure), and `configure_dynaconf_cli` (which raises
`AttributeError` when `DAB_DYNACONF` is missing and otherwise stores an
opaque Dynaconf instance under `CLI_DYNACONF`). -/
def post (settings : Store) (earlierHooks : List Data)
    (run_dynamic run_validate : Bool) (dynHooks : List String) (importsOk : Bool) :
    Except String Data :=
  let data1 := earlierHooks.foldl dataUpdate postInitData
  let data2 := storeSet data1 ("IS_CONNECTED_TO_RESOURCE_SERVER")
    (.vBool (isConnectedToResourceServer settings))
  let dynStep : Except String Data :=
    if run_dynamic then
      match configure_dynamic_settings dynHooks importsOk with
      | .ok (d, _) => .ok (dataUpdate data2 d)
      | .error e => .error e
    else .ok data2
  match dynStep with
  | .error e => .error e
  | .ok data3 =>
    if run_validate && (galaxyValidate settings).isSome then
      .error ("ValidationError")
    else
      match storeGet data3 ("DAB_DYNACONF") with
      | none => .error ("AttributeError: DAB_DYNACONF not found in settings")
      | some _ => .ok (storeSet data3 ("CLI_DYNACONF") (SettingValue.vObj ("cli_dynaconf")))

/-! ### Helper lemmas for the merge and consolidation operations -/

theorem mem_mergeUnique_left {α : Type} [DecidableEq α] {x : α} (e i : List α)
    (h : x ∈ e) : x ∈ mergeUnique e i :=
  List.mem_append_left _ h

theorem mem_mergeUnique_right {α : Type} [DecidableEq α] {x : α} (e i : List α)
    (h : x ∈ i) : x ∈ mergeUnique e i := by
  by_cases hx : x ∈ e
  · exact List.mem_append_left _ hx
  · refine List.mem_append_right _ (List.mem_filter.mpr ⟨h, ?_⟩)
    simp [hx]

theorem mem_dedupDynaconfMerge {x : String} (l : List String) (h : x ∈ l) :
    x ∈ dedupDynaconfMerge l := by
  unfold dedupDynaconfMerge
  split
  · by_cases hx : x = "dynaconf_merge"
    · subst hx
      simp
    · exact List.mem_append_left _ (List.mem_filter.mpr ⟨h, by simp [hx]⟩)
  · exact h

theorem count_mergeUnique (a : String) (e i : List String) :
    (mergeUnique e i).count a = if a ∈ e then e.count a else i.count a := by
  unfold mergeUnique
  rw [List.count_append]
  by_cases ha : a ∈ e
  · rw [if_pos ha]
    have hnot : a ∉ i.filter (fun x => !e.contains x) := by
      intro hmem
      have hp := (List.mem_filter.mp hmem).2
      simp [ha] at hp
    rw [List.count_eq_zero_of_not_mem hnot, Nat.add_zero]
  · rw [if_neg ha, List.count_eq_zero_of_not_mem ha, Nat.zero_add,
      List.count_filter (by simp [ha])]

theorem erase_eq_filter_of_count_le_one (l : List String) (a : String)
    (h : l.count a ≤ 1) : l.erase a = l.filter (fun x => x != a) := by
  induction l with
  | nil => rfl
  | cons b tl ih =>
    by_cases hba : b = a
    · subst hba
      rw [List.erase_cons_head]
      have h0 : tl.count b = 0 := by
        have hc := List.count_cons_self b tl
        omega
      have hnot : b ∉ tl := List.not_mem_of_count_eq_zero h0
      rw [List.filter_cons]
      simp only [bne_self_eq_false, Bool.false_eq_true, if_false]
      symm
      rw [List.filter_eq_self]
      intro x hx
      simp [ne_of_mem_of_not_mem hx hnot]
    · have hab : a ≠ b := fun hh => hba hh.symm
      have hcount : tl.count a ≤ 1 := by
        have hc := List.count_cons_of_ne hab tl
        omega
      rw [List.erase_cons_tail (by simp [hba]), List.filter_cons]
      simp only [bne_iff_ne, ne_eq, hba, not_false_eq_true, if_true]
      rw [ih hcount]

/-! ### Claim C1 -/

/-- A settings store with both the keycloak and the github social-auth
credentials configured, used to exhibit the interaction between
`configure_keycloak` and `configure_socialauth` inside `post`. -/
def c1Settings : Store :=
  [("SOCIAL_AUTH_KEYCLOAK_KEY", SettingValue.vStr ("kc-key")),
   ("SOCIAL_AUTH_KEYCLOAK_SECRET", .vStr ("kc-secret")),
   ("SOCIAL_AUTH_KEYCLOAK_PUBLIC_KEY", .vStr ("kc-pub")),
   ("KEYCLOAK_PROTOCOL", .vStr ("https")),
   ("KEYCLOAK_HOST", .vStr ("keycloak.example.com")),
   ("KEYCLOAK_PORT", .vStr ("8443")),
   ("KEYCLOAK_REALM", .vStr ("aap")),
   ("BASE_DIR", .vStr ("/app")),
   ("SOCIAL_AUTH_GITHUB_KEY", .vStr ("gh-key")),
   ("SOCIAL_AUTH_GITHUB_SECRET", .vStr ("gh-secret"))]

/-- Claim C1 is false on the code: in `post`, `configure_socialauth` runs
after `configure_keycloak` and reads `AUTHENTICATION_BACKENDS` from the
original settings store, not from the merged-so-far data.  Concretely, with
both keycloak and github configured, after `configure_keycloak` the
merged-so-far value of `AUTHENTICATION_BACKENDS` contains the keycloak
backend, yet the value `configure_socialauth` contributes (which then
overwrites the key via `data.update`) was computed from the initial store
and does not contain it. -/
theorem claim_C1_counterexample :
    storeGet (dataUpdate postInitData (configure_keycloak c1Settings))
        ("AUTHENTICATION_BACKENDS")
      = some (SettingValue.vList
          (["social_core.backends.keycloak.KeycloakOAuth2", "dynaconf_merge"].map SettingValue.vStr))
    ∧ storeGet (dataUpdate (dataUpdate postInitData (configure_keycloak c1Settings))
          (configure_socialauth c1Settings)) ("AUTHENTICATION_BACKENDS")
      = some (SettingValue.vList
          (["galaxy_ng.social.GalaxyNGOAuth2", "dynaconf_merge"].map SettingValue.vStr))
    ∧ ("social_core.backends.keycloak.KeycloakOAuth2" : String)
        ∉ ["galaxy_ng.social.GalaxyNGOAuth2", "dynaconf_merge"] :=
  ⟨by rfl, by rfl, by decide⟩

/-- Claim C1 (amended): only the hooks that receive the accumulating `data`
dict (`configure_dab_required_settings`, `configure_authentication_backends`,
`configure_authentication_classes`, `configure_dynaconf_cli`) observe the
merged-so-far store; the earlier hooks read only the original settings.  In
particular `configure_authentication_backends` does read the merged-so-far
`AUTHENTICATION_BACKENDS` from `data` and keeps every backend contributed by
earlier hooks in its result. -/
theorem claim_C1_theorem (sb db : List String) (plo : Option (List String))
    (x : String) (h : x ∈ db) :
    x ∈ configure_authentication_backends sb (some db) plo := by
  have h2 : x ∈ mergeUnique sb db := mem_mergeUnique_right sb db h
  cases plo with
  | none =>
    unfold configure_authentication_backends
    simp only
    apply mem_dedupDynaconfMerge
    split
    · exact h2
    · exact List.mem_append_left _ h2
  | some l =>
    have h3 : x ∈ mergeUnique (mergeUnique sb db) l := mem_mergeUnique_left _ l h2
    unfold configure_authentication_backends
    simp only
    apply mem_dedupDynaconfMerge
    split
    · exact h3
    · exact List.mem_append_left _ h3

/-- Witness for the amended claim C1 at a concrete input. -/
theorem claim_C1_witness :
    "social_core.backends.keycloak.KeycloakOAuth2" ∈
      configure_authentication_backends []
        (some ["social_core.backends.keycloak.KeycloakOAuth2", "dynaconf_merge"]) none :=
  claim_C1_theorem _ _ _ _ (by simp)

/-! ### Claim C2 -/

/-- Claim C2 is false as universally stated: an input list containing the
session class twice (both occurrences away from position 0) yields an output
that still contains a duplicate, because `list.remove` drops only the first
occurrence.  The input below contains the designated class only at positions
other than 0, yet the output contains it twice. -/
theorem claim_C2_counterexample :
    configure_authentication_classes
        ["rest_framework.authentication.TokenAuthentication",
         galaxySessionClass, galaxySessionClass] false
      = [galaxySessionClass, "rest_framework.authentication.TokenAuthentication",
         galaxySessionClass]
    ∧ (configure_authentication_classes
        ["rest_framework.authentication.TokenAuthentication",
         galaxySessionClass, galaxySessionClass] false).count galaxySessionClass = 2
    ∧ ["rest_framework.authentication.TokenAuthentication",
       galaxySessionClass, galaxySessionClass].head? ≠ some galaxySessionClass :=
  ⟨by rfl, by rfl, by decide⟩

/-- Claim C2 (amended): for every input class list containing exactly one
occurrence of the designated must-be-first class, at a position other
than 0, `configure_authentication_classes` returns that class at position 0
followed by the remaining elements in their original relative order, with no
duplicate occurrence of it. -/
theorem claim_C2_theorem (l : List String)
    (h1 : l.count galaxySessionClass = 1)
    (h2 : l.head? ≠ some galaxySessionClass) :
    configure_authentication_classes l false
      = galaxySessionClass :: l.filter (fun x => x != galaxySessionClass)
    ∧ (configure_authentication_classes l false).count galaxySessionClass = 1 := by
  have hmem : galaxySessionClass ∈ l := List.count_pos_iff.mp (by omega)
  have hemp : l.isEmpty = false := by
    cases l with
    | nil => simp at hmem
    | cons a tl => rfl
  have hhead : (l.head? == some galaxySessionClass) = false := by
    simp only [beq_eq_false_iff_ne, ne_eq]
    exact h2
  have hcont : l.contains galaxySessionClass = true := List.elem_eq_true_of_mem hmem
  have hmain : configure_authentication_classes l false
      = galaxySessionClass :: l.erase galaxySessionClass := by
    unfold configure_authentication_classes
    simp only [Bool.false_eq_true, if_false, hemp, hhead, bne,
      Bool.not_false, Bool.and_self, if_true, hcont]
  rw [hmain, erase_eq_filter_of_count_le_one l galaxySessionClass (by omega)]
  refine ⟨rfl, ?_⟩
  rw [List.count_cons_self]
  have hnot : galaxySessionClass ∉ l.filter (fun x => x != galaxySessionClass) := by
    intro hmemf
    have hp := (List.mem_filter.mp hmemf).2
    simp at hp
  rw [List.count_eq_zero_of_not_mem hnot]

/-- Witness for the amended claim C2 at a concrete input. -/
theorem claim_C2_witness :
    configure_authentication_classes
        ["rest_framework.authentication.TokenAuthentication", galaxySessionClass] false
      = galaxySessionClass ::
        ["rest_framework.authentication.TokenAuthentication",
         galaxySessionClass].filter (fun x => x != galaxySessionClass)
    ∧ (configure_authentication_classes
        ["rest_framework.authentication.TokenAuthentication", galaxySessionClass]
        false).count galaxySessionClass = 1 :=
  claim_C2_theorem _ (by rfl) (by decide)

/-! ### Claim C5 -/

theorem prefixedUserBackend_ne_dynaconfMerge : prefixedUserBackend ≠ "dynaconf_merge" := by
  decide

theorem count_dedupDynaconfMerge_of_ne (x : String) (l : List String)
    (h : x ≠ "dynaconf_merge") :
    (dedupDynaconfMerge l).count x = l.count x := by
  unfold dedupDynaconfMerge
  split
  · rw [List.count_append, List.count_filter (by simp [h]), List.count_singleton]
    simp [Ne.symm h]
  · rfl

/-- Claim C5: the append-unique merge equals `existing` followed by the
novel elements of `incoming` in order; `merge([1,2],[2,3]) = [1,2,3]`; the
mandatory trailing backend is always present in the result of
`configure_authentication_backends`; and when no input list mentions it more
than once it occurs exactly once (appended only when not already present). -/
theorem claim_C5_theorem :
    (∀ (existing incoming : List Nat),
      mergeUnique existing incoming
        = existing ++ incoming.filter (fun x => !existing.contains x))
    ∧ mergeUnique [1, 2] [2, 3] = [1, 2, 3]
    ∧ (∀ (sb : List String) (dbo plo : Option (List String)),
        prefixedUserBackend ∈ configure_authentication_backends sb dbo plo)
    ∧ (∀ (sb db pl : List String),
        sb.count prefixedUserBackend ≤ 1 →
        db.count prefixedUserBackend ≤ 1 →
        pl.count prefixedUserBackend ≤ 1 →
        (configure_authentication_backends sb (some db) (some pl)).count
          prefixedUserBackend = 1) := by
  refine ⟨fun _ _ => rfl, by decide, ?_, ?_⟩
  · intro sb dbo plo
    unfold configure_authentication_backends
    simp only
    apply mem_dedupDynaconfMerge
    split
    · next hcont => exact List.elem_iff.mp hcont
    · exact List.mem_append_right _ (by simp)
  · intro sb db pl h1 h2 h3
    unfold configure_authentication_backends
    simp only
    have hc2 : (mergeUnique sb db).count prefixedUserBackend ≤ 1 := by
      rw [count_mergeUnique]
      split
      · exact h1
      · exact h2
    have hc3 : (mergeUnique (mergeUnique sb db) pl).count prefixedUserBackend ≤ 1 := by
      rw [count_mergeUnique]
      split
      · exact hc2
      · exact h3
    by_cases hcont :
        (mergeUnique (mergeUnique sb db) pl).contains prefixedUserBackend = true
    · rw [if_pos hcont, count_dedupDynaconfMerge_of_ne _ _
        prefixedUserBackend_ne_dynaconfMerge]
      have hmem : prefixedUserBackend ∈ mergeUnique (mergeUnique sb db) pl :=
        List.elem_iff.mp hcont
      have hpos := List.count_pos_iff.mpr hmem
      omega
    · rw [if_neg hcont, count_dedupDynaconfMerge_of_ne _ _
        prefixedUserBackend_ne_dynaconfMerge, List.count_append,
        List.count_singleton_self]
      have hnm : prefixedUserBackend ∉ mergeUnique (mergeUnique sb db) pl :=
        fun hm => hcont (List.elem_eq_true_of_mem hm)
      rw [List.count_eq_zero_of_not_mem hnm]

/-- Witness for claim C5 at concrete inputs. -/
theorem claim_C5_witness :
    (configure_authentication_backends ["backend.a"] (some ["backend.b"])
      (some ["backend.c"])).count prefixedUserBackend = 1 :=
  claim_C5_theorem.2.2.2 ["backend.a"] ["backend.b"] ["backend.c"]
    (by decide) (by decide) (by decide)

/-! ### Claims C3 and C9 -/

/-- Claim C3: for an allow-listed key read through
`read_settings_from_cache_or_db`: (1) while apps are not ready the static
value is returned unchanged whatever cache and store hold; (2) once ready, a
cache hit for the key returns the cached value; (3) on cache miss the
durable store is consulted and a store hit returns its value; (4) when both
cache and store miss, the static fallback already present in the resolved
store is returned. -/
theorem claim_C3_theorem :
    (∀ (schema : List String) (st : DynState) (temp : Store) (key : String)
        (v : SettingValue), st.appsReady = false →
      read_settings_from_cache_or_db schema st temp key v = v)
    ∧ (∀ (schema : List String) (st : DynState) (temp : Store) (key : String)
        (v w : SettingValue), st.appsReady = true →
        schema.contains (strUpper key) = true → st.parseOk = true →
        (st.cache.map Prod.fst).Nodup →
        storeGet st.cache (strUpper key) = some w →
      read_settings_from_cache_or_db schema st temp key v = w)
    ∧ (∀ (schema : List String) (st : DynState) (temp : Store) (key : String)
        (v w : SettingValue), st.appsReady = true →
        schema.contains (strUpper key) = true → st.parseOk = true →
        st.cache = [] → (st.db.map Prod.fst).Nodup →
        storeGet st.db (strUpper key) = some w →
      read_settings_from_cache_or_db schema st temp key v = w)
    ∧ (∀ (schema : List String) (st : DynState) (temp : Store) (key : String)
        (v : SettingValue), st.appsReady = true →
        st.cache = [] → st.db = [] →
        storeGet temp (strUpper key) = some v →
      read_settings_from_cache_or_db schema st temp key v = v) := by
  refine ⟨?_, ?_, ?_, ?_⟩
  · intro schema st temp key v hr
    simp [read_settings_from_cache_or_db, hr]
  · intro schema st temp key v w hr hs hp hnd hget
    have hemp : st.cache.isEmpty = false := by
      cases hc : st.cache with
      | nil => rw [hc] at hget; simp [storeGet] at hget
      | cons a tl => rfl
    simp only [read_settings_from_cache_or_db, hr, hs, hp, hemp,
      temp_settings_update, Bool.not_true, Bool.or_self, Bool.false_eq_true,
      if_false, if_true]
    rw [storeGet_dataUpdate_of_mem temp st.cache (strUpper key) w hnd hget]
    rfl
  · intro schema st temp key v w hr hs hp hc hnd hget
    have hemp : st.db.isEmpty = false := by
      cases hd : st.db with
      | nil => rw [hd] at hget; simp [storeGet] at hget
      | cons a tl => rfl
    simp only [read_settings_from_cache_or_db, hr, hs, hp, hc, hemp,
      temp_settings_update, Bool.not_true, Bool.or_self, Bool.false_eq_true,
      List.isEmpty_nil, if_false, if_true]
    rw [storeGet_dataUpdate_of_mem temp st.db (strUpper key) w hnd hget]
    rfl
  · intro schema st temp key v hr hc hd hget
    cases hs : schema.contains (strUpper key) with
    | false =>
      simp only [read_settings_from_cache_or_db, hr, hs]
      simp
    | true => simp [read_settings_from_cache_or_db, hr, hs, hc, hd, hget]

/-- Witness for claim C3 (the ready, cache-hit case) at concrete inputs. -/
theorem claim_C3_witness :
    read_settings_from_cache_or_db ["GALAXY_REQUIRE_CONTENT_APPROVAL"]
        ⟨true, [("GALAXY_REQUIRE_CONTENT_APPROVAL", SettingValue.vBool false)], [], true⟩
        [("GALAXY_REQUIRE_CONTENT_APPROVAL", SettingValue.vBool true)]
        "GALAXY_REQUIRE_CONTENT_APPROVAL" (SettingValue.vBool true)
      = SettingValue.vBool false :=
  claim_C3_theorem.2.1 _ _ _ _ _ _ rfl (by rfl) rfl (by simp) (by rfl)

/-- Claim C9: errors during cache or store access are swallowed by the
accessors (spec-modelled as an empty result) and the read then degrades to
the static value; a parse/format error raised while merging fetched data is
caught, the partial update is discarded, and the value already present in
the temporary settings (the prior state) is returned.  The hook is a total
function: no branch propagates an exception. -/
theorem claim_C9_theorem :
    (∀ (schema : List String) (ready parse : Bool) (temp : Store) (key : String)
        (v : SettingValue), storeGet temp (strUpper key) = some v →
      read_settings_from_cache_or_db schema ⟨ready, [], [], parse⟩ temp key v = v)
    ∧ (∀ (schema : List String) (st : DynState) (temp : Store) (key : String)
        (v : SettingValue), st.parseOk = false → st.appsReady = true →
        schema.contains (strUpper key) = true →
      read_settings_from_cache_or_db schema st temp key v
        = (storeGet temp (strUpper key)).getD v) := by
  constructor
  · intro schema ready parse temp key v hget
    cases ready with
    | false => simp [read_settings_from_cache_or_db]
    | true =>
      cases hs : schema.contains (strUpper key) with
      | false =>
        simp only [read_settings_from_cache_or_db, hs]
        simp
      | true => simp [read_settings_from_cache_or_db, hs, hget]
  · intro schema st temp key v hp hr hs
    cases hde : (if st.cache.isEmpty then st.db else st.cache).isEmpty with
    | true =>
      simp only [read_settings_from_cache_or_db, hr, hs, Bool.not_true,
        Bool.or_self, Bool.false_eq_true, if_false, hde, if_true]
    | false =>
      simp only [read_settings_from_cache_or_db, hr, hs, hp, Bool.not_true,
        Bool.or_self, Bool.false_eq_true, if_false, hde,
        temp_settings_update]

/-- Witness for claim C9 (the parse-error case) at concrete inputs. -/
theorem claim_C9_witness :
    read_settings_from_cache_or_db ["GALAXY_REQUIRE_CONTENT_APPROVAL"]
        ⟨true, [("GALAXY_REQUIRE_CONTENT_APPROVAL", SettingValue.vBool false)], [], false⟩
        [("GALAXY_REQUIRE_CONTENT_APPROVAL", SettingValue.vBool true)]
        "GALAXY_REQUIRE_CONTENT_APPROVAL" (SettingValue.vBool true)
      = (storeGet [("GALAXY_REQUIRE_CONTENT_APPROVAL", SettingValue.vBool true)]
          (strUpper ("GALAXY_REQUIRE_CONTENT_APPROVAL"))).getD (SettingValue.vBool true) :=
  claim_C9_theorem.2 _ _ _ _ _ rfl rfl (by rfl)

/-! ### Claim C4 -/

/-- Claim C4: with the app serving requests (a request context can only be
active once apps are ready) and a request-scoped key, headers
`X-Forwarded-Proto: https` and `Host: example.org` derive the origin
`https://example.org` (with `/token/` appended for `TOKEN_SERVER`); with no
active request context the static value is returned unchanged; and the
computation never touches cache, store or parsing state. -/
theorem claim_C4_theorem :
    (∀ (st : DynState) (hs : Headers) (key : String) (v : SettingValue),
        st.appsReady = true →
        (["CONTENT_ORIGIN", "ANSIBLE_API_HOSTNAME", "TOKEN_SERVER"].contains
          (strUpper key)) = true →
        hdrGet hs ("X-Forwarded-Proto") = some ("https") →
        hdrGet hs ("Host") = some ("example.org") →
      alter_hostname_settings st (some hs) key v
        = .vStr (if strUpper key = "TOKEN_SERVER" then "https://example.org/token/"
                 else "https://example.org"))
    ∧ (∀ (st : DynState) (key : String) (v : SettingValue),
        alter_hostname_settings st none key v = v)
    ∧ (∀ (r p p2 : Bool) (c c2 d d2 : Data) (req : Option Headers)
        (key : String) (v : SettingValue),
        alter_hostname_settings ⟨r, c, d, p⟩ req key v
          = alter_hostname_settings ⟨r, c2, d2, p2⟩ req key v) := by
  refine ⟨?_, ?_, ?_⟩
  · intro st hs key v hr hk hproto hhost
    simp only [alter_hostname_settings, hr, hk, Bool.not_true, Bool.or_self,
      Bool.false_eq_true, if_false, hproto, hhost, Option.getD_some]
    split <;> rfl
  · intro st key v
    simp [alter_hostname_settings]
  · intro r p p2 c c2 d d2 req key v
    rfl

/-- Witness for claim C4 (request-context case) at concrete inputs. -/
theorem claim_C4_witness :
    alter_hostname_settings ⟨true, [], [], true⟩
        (some [("X-Forwarded-Proto", "https"), ("Host", "example.org")])
        "CONTENT_ORIGIN" (SettingValue.vStr ("http://static.example"))
      = SettingValue.vStr
          (if strUpper ("CONTENT_ORIGIN") = "TOKEN_SERVER"
           then "https://example.org/token/" else "https://example.org") :=
  claim_C4_theorem.1 _ _ _ _ rfl (by rfl) (by rfl) (by rfl)

/-! ### Claim C6 -/

/-- Claim C6: when `GALAXY_REQUIRE_CONTENT_APPROVAL` holds a value other
than `False`, the conditional rule on
`GALAXY_REQUIRE_SIGNATURE_FOR_APPROVAL` is skipped entirely (outcome
`skipped`, not merely `passed`), hence never raises, whatever value the
bound key holds in the store. -/
theorem claim_C6_theorem (store : Store) (v : SettingValue)
    (h1 : storeGet store ("GALAXY_REQUIRE_CONTENT_APPROVAL") = some v)
    (h2 : v ≠ SettingValue.vBool false) :
    runRule store galaxyRule1 = RuleOutcome.skipped := by
  have hfv : isFalseVal v = false := by
    cases v with
    | vBool b =>
      cases b with
      | false => exact absurd rfl h2
      | true => rfl
    | vNone => rfl
    | vStr s => rfl
    | vInt n => rfl
    | vList l => rfl
    | vMap m => rfl
    | vObj t => rfl
  have hcond : condHolds store galaxyRule1 = false := by
    simp only [condHolds, galaxyRule1, h1, hfv]
  simp only [runRule, hcond, Bool.not_false, if_true]

/-- Witness for claim C6: content approval not required to be `False`, and
the bound key set to `True` (which would fail the predicate were the rule
evaluated); the rule is nevertheless skipped. -/
theorem claim_C6_witness :
    runRule
      [("GALAXY_REQUIRE_CONTENT_APPROVAL", SettingValue.vBool true),
       ("GALAXY_REQUIRE_SIGNATURE_FOR_APPROVAL", SettingValue.vBool true)]
      galaxyRule1 = RuleOutcome.skipped :=
  claim_C6_theorem _ _ (by rfl) (by intro h; injection h with hb; exact Bool.noConfusion hb)

/-! ### Claim C7 -/

/-- Claim C7: given that the conditional signature rule does not fail,
`validate` raises `ValidationError` exactly when the string value of
`AUTHENTICATION_BACKEND_PRESET` is outside the union of the fixed base set
`{local, custom}` and the key set of the resolved
`AUTHENTICATION_BACKEND_PRESETS_DATA` mapping; in particular every
dynamically registered preset key passes. -/
theorem claim_C7_theorem (store : Store) (s : String)
    (h1 : storeGet store ("AUTHENTICATION_BACKEND_PRESET") = some (SettingValue.vStr s))
    (h2 : runRule store galaxyRule1 ≠ RuleOutcome.failed) :
    (galaxyValidate store).isSome
      = !(("local" :: "custom" :: presetsKeys store).contains s) := by
  have hr2 : runRule store (galaxyRule2 store)
      = (if ("local" :: "custom" :: presetsKeys store).contains s
         then RuleOutcome.passed else RuleOutcome.failed) := by
    simp only [runRule, galaxyRule2, condHolds, Bool.not_true, Bool.false_eq_true,
      if_false, h1]
  unfold galaxyValidate
  rw [if_neg h2, hr2]
  cases hc : ("local" :: "custom" :: presetsKeys store).contains s with
  | true => rfl
  | false => rfl

/-- Witness for claim C7: a value equal to a dynamically registered preset
key (`ldap`) passes validation. -/
theorem claim_C7_witness :
    (galaxyValidate
      [("AUTHENTICATION_BACKEND_PRESET", SettingValue.vStr ("ldap")),
       ("AUTHENTICATION_BACKEND_PRESETS_DATA",
        SettingValue.vMap
          [("ldap", SettingValue.vList []), ("keycloak", SettingValue.vList [])])]).isSome
      = !((("local" : String) :: "custom" :: presetsKeys
          [("AUTHENTICATION_BACKEND_PRESET", SettingValue.vStr ("ldap")),
           ("AUTHENTICATION_BACKEND_PRESETS_DATA",
            SettingValue.vMap
              [("ldap", SettingValue.vList []),
               ("keycloak", SettingValue.vList [])])]).contains "ldap") :=
  claim_C7_theorem _ _ (by rfl) (by decide)

/-! ### Claim C8 -/

/-- Claim C8: when the dynaconf hooking imports fail (dynaconf < 3.2.3) and
dynamic-settings hooks were requested, `configure_dynamic_settings` returns
an empty partial update (registering no override hooks), logs the
degradation notice, and does not raise. -/
theorem claim_C8_theorem (hooks : List String) (h : hooks ≠ []) :
    configure_dynamic_settings hooks false
      = Except.ok ([], [dynamicSettingsDegradedMsg]) := by
  unfold configure_dynamic_settings
  have hemp : hooks.isEmpty = false := by
    cases hooks with
    | nil => exact absurd rfl h
    | cons a tl => rfl
  rw [hemp]
  rfl

/-- Witness for claim C8 at a concrete input. -/
theorem claim_C8_witness :
    configure_dynamic_settings ["read_settings_from_cache_or_db"] false
      = Except.ok ([], [dynamicSettingsDegradedMsg]) :=
  claim_C8_theorem _ (by simp)

/-! ### Claim C10 -/

theorem configure_dynamic_settings_keys (hooks : List String) (io : Bool)
    (d : Data) (logs : List String)
    (h : configure_dynamic_settings hooks io = Except.ok (d, logs)) :
    ∀ p ∈ d, p.1 = "_registered_hooks" := by
  unfold configure_dynamic_settings at h
  split at h
  · simp only [Except.ok.injEq, Prod.mk.injEq] at h
    obtain ⟨h1, h2⟩ := h
    subst h1
    intro p hp
    simp at hp
  · split at h
    · simp only [Except.ok.injEq, Prod.mk.injEq] at h
      obtain ⟨h1, h2⟩ := h
      subst h1
      intro p hp
      simp at hp
    · split at h
      · simp only [Except.ok.injEq, Prod.mk.injEq] at h
        obtain ⟨h1, h2⟩ := h
        subst h1
        intro p hp
        simp only [List.mem_singleton] at hp
        rw [hp]
      · exact absurd h (by simp)

/-- Claim C10: whenever `post` returns a result dict, the dict contains the
key `IS_CONNECTED_TO_RESOURCE_SERVER`, and its value is `True` exactly when
`RESOURCE_SERVER__URL` is set to a non-None value in the input settings. -/
theorem claim_C10_theorem (settings : Store) (earlier : List Data)
    (rd rv : Bool) (dh : List String) (io : Bool) (d : Data)
    (h : post settings earlier rd rv dh io = Except.ok d) :
    storeGet d ("IS_CONNECTED_TO_RESOURCE_SERVER")
      = some (SettingValue.vBool (isConnectedToResourceServer settings))
    ∧ (isConnectedToResourceServer settings = true
        ↔ ∃ v, storeGet settings ("RESOURCE_SERVER__URL") = some v
            ∧ v ≠ SettingValue.vNone) := by
  constructor
  · cases rd with
    | false =>
      unfold post at h
      simp only [Bool.false_eq_true, if_false] at h
      split at h
      · exact absurd h (by simp)
      · split at h
        · exact absurd h (by simp)
        · simp only [Except.ok.injEq] at h
          subst h
          rw [storeGet_storeSet_ne _ _ _ _ (by decide)]
          exact storeGet_storeSet_self _ _ _
    | true =>
      unfold post at h
      simp only [if_true] at h
      cases hcd : configure_dynamic_settings dh io with
      | error e =>
        rw [hcd] at h
        simp at h
      | ok pr =>
        obtain ⟨dd, logs⟩ := pr
        rw [hcd] at h
        simp only at h
        split at h
        · exact absurd h (by simp)
        · split at h
          · exact absurd h (by simp)
          · simp only [Except.ok.injEq] at h
            subst h
            have hkeys := configure_dynamic_settings_keys dh io dd logs hcd
            rw [storeGet_storeSet_ne _ _ _ _ (by decide)]
            rw [storeGet_dataUpdate_notin _ dd _
              (fun p hp => by rw [hkeys p hp]; decide)]
            exact storeGet_storeSet_self _ _ _
  · cases hv : storeGet settings ("RESOURCE_SERVER__URL") with
    | none =>
      unfold isConnectedToResourceServer
      rw [hv]
      simp
    | some v =>
      unfold isConnectedToResourceServer
      rw [hv]
      cases v <;> simp

/-- Witness for claim C10 at concrete inputs (resource server configured,
DAB instance provided by an earlier hook, validation passing). -/
theorem claim_C10_witness :
    ∃ d, post [("RESOURCE_SERVER__URL", SettingValue.vStr ("https://resource.example"))]
        [[("DAB_DYNACONF", SettingValue.vObj ("dab_dynaconf"))]] true true [] true
        = Except.ok d
      ∧ storeGet d ("IS_CONNECTED_TO_RESOURCE_SERVER")
        = some (SettingValue.vBool (isConnectedToResourceServer
            [("RESOURCE_SERVER__URL", SettingValue.vStr ("https://resource.example"))])) :=
  ⟨_, rfl,
    (claim_C10_theorem
      [("RESOURCE_SERVER__URL", SettingValue.vStr ("https://resource.example"))]
      [[("DAB_DYNACONF", SettingValue.vObj ("dab_dynaconf"))]] true true [] true _
      rfl).1⟩
